import Mathlib

/-!
Verification of the MindTrack risk-assessment core.

Shallow embedding of the domain logic of the repository:
  - `app/routes/questionnaire.py`: `calculate_risk_score` (lines 137-194),
    the inline risk-level classification of `submit_questionnaire`
    (lines 79-85), and `generate_prediction` (lines 196-246);
  - `app/routes/predictions.py`: the score/trend computation of
    `get_prediction_trends` (lines 79-129) and the insight selection of
    `get_personalized_insights` (lines 131-202);
  - `ml/model.py`: `MentalHealthPredictor.prepare_features` (lines 29-53).

Python ints are modelled as `Int`, Python floats as `Rat` (the values the
program manipulates are small decimal literals, where float and rational
arithmetic agree), Python dicts with possibly missing keys as records of
`Option` fields or as `String → Option RawValue` maps, and a raised
exception as `Option.none`.
-/

/-- The payload handed to `calculate_risk_score` and `generate_prediction`:
`data.dict()` of the pydantic model `QuestionnaireData`
(questionnaire.py lines 17-48), viewed as a `Dict[str, Any]` in which each
declared key may be absent (`none`), since both consumers read every key
through `data.get(key, default)`. -/
structure QDict where
  feel_sad : Option Int := none
  feel_lonely : Option Int := none
  feel_confident : Option Int := none
  feel_stressed : Option Int := none
  feel_happy : Option Int := none
  feel_angry : Option Int := none
  hours_sleep : Option Rat := none
  minutes_physical_activity : Option Int := none
  friends_count : Option Int := none
  family_support : Option Int := none
  school_belonging : Option Int := none
  self_harm_ever : Option Bool := none
  self_harm_frequency : Option String := none
  bullied_recently : Option Bool := none
  stress_level : Option Int := none
  anxiety_level : Option Int := none

/-- Emotional factors term of `calculate_risk_score`
(questionnaire.py lines 142-146). -/
def emotional_pts (data : QDict) : Int :=
  let negative_emotions := data.feel_sad.getD 1 + data.feel_lonely.getD 1 +
    data.feel_stressed.getD 1 + data.feel_angry.getD 1
  let positive_emotions := data.feel_confident.getD 1 + data.feel_happy.getD 1
  (negative_emotions - positive_emotions) * 2

/-- Sleep term of `calculate_risk_score` (questionnaire.py lines 148-155). -/
def sleep_pts (data : QDict) : Int :=
  let sleep := data.hours_sleep.getD 8
  if sleep < 6 then 15 else if sleep < 7 then 10 else if sleep < 8 then 5 else 0

/-- Physical-activity term of `calculate_risk_score`
(questionnaire.py lines 157-162). -/
def activity_pts (data : QDict) : Int :=
  let activity := data.minutes_physical_activity.getD 0
  if activity < 30 then 10 else if activity < 60 then 5 else 0

/-- Friends term of `calculate_risk_score` (questionnaire.py lines 164-169). -/
def friends_pts (data : QDict) : Int :=
  let friends := data.friends_count.getD 3
  if friends < 2 then 10 else if friends < 3 then 5 else 0

/-- Family-support term of `calculate_risk_score`
(questionnaire.py lines 171-173). -/
def family_pts (data : QDict) : Int :=
  let family_support := data.family_support.getD 3
  if family_support < 3 then 5 else 0

/-- School-belonging term of `calculate_risk_score`
(questionnaire.py lines 175-180). -/
def belonging_pts (data : QDict) : Int :=
  let belonging := data.school_belonging.getD 3
  if belonging < 3 then 10 else if belonging < 4 then 5 else 0

/-- Self-harm term of `calculate_risk_score` (questionnaire.py lines 182-184). -/
def self_harm_pts (data : QDict) : Int :=
  if data.self_harm_ever.getD false then 15 else 0

/-- Bullying term of `calculate_risk_score` (questionnaire.py lines 186-188). -/
def bullying_pts (data : QDict) : Int :=
  if data.bullied_recently.getD false then 10 else 0

/-- Stress/anxiety term of `calculate_risk_score`
(questionnaire.py lines 190-192). -/
def stress_anxiety_pts (data : QDict) : Int :=
  (data.stress_level.getD 1 - 1) + (data.anxiety_level.getD 1 - 1)

/-- The pre-clamp additive sum accumulated in the local variable `score`
of `calculate_risk_score` (questionnaire.py lines 139-192). -/
def raw_score (data : QDict) : Int :=
  emotional_pts data + sleep_pts data + activity_pts data + friends_pts data +
    family_pts data + belonging_pts data + self_harm_pts data +
    bullying_pts data + stress_anxiety_pts data

/-- `calculate_risk_score` (questionnaire.py lines 137-194): the additive
sum followed by the final clamp `min(max(score, 0), 100)`. -/
def calculate_risk_score (data : QDict) : Int :=
  min (max (raw_score data) 0) 100

/-- The inline risk-level classification of `submit_questionnaire`
(questionnaire.py lines 79-85). -/
def classify (risk_score : Rat) : String :=
  if risk_score < 30 then "Low" else if risk_score < 60 then "Medium" else "High"

/-- Rank of a risk level in the Low < Medium < High order, used to state
monotonicity of `classify`. -/
def levelRank (level : String) : Nat :=
  if level = "Low" then 0 else if level = "Medium" then 1 else 2

/-- The seven checklist predicates of `generate_prediction`
(questionnaire.py lines 202-230), in source order. -/
def checklist_preds (data : QDict) : List Bool :=
  [decide (data.hours_sleep.getD 8 < 7),
   decide (data.minutes_physical_activity.getD 0 < 60),
   decide (data.feel_sad.getD 1 ≥ 4),
   decide (data.feel_stressed.getD 1 ≥ 4),
   data.self_harm_ever.getD false,
   data.bullied_recently.getD false,
   decide (data.family_support.getD 3 < 3)]

/-- The seven factor labels of `generate_prediction`, in checklist order. -/
def checklist_labels : List String :=
  ["Poor sleep patterns", "Low physical activity", "Feelings of sadness",
   "High stress levels", "History of self-harm", "Recent bullying experience",
   "Limited family support"]

/-- The `factors` list built by `generate_prediction`
(questionnaire.py lines 198-230): each true predicate appends its fixed
label, in source order. -/
def checklist_factors (data : QDict) : List String :=
  (if data.hours_sleep.getD 8 < 7 then ["Poor sleep patterns"] else []) ++
  ((if data.minutes_physical_activity.getD 0 < 60 then ["Low physical activity"] else []) ++
  ((if data.feel_sad.getD 1 ≥ 4 then ["Feelings of sadness"] else []) ++
  ((if data.feel_stressed.getD 1 ≥ 4 then ["High stress levels"] else []) ++
  ((if data.self_harm_ever.getD false then ["History of self-harm"] else []) ++
  ((if data.bullied_recently.getD false then ["Recent bullying experience"] else []) ++
  (if data.family_support.getD 3 < 3 then ["Limited family support"] else []))))))

/-- The checklist part of the `recommendations` list built by
`generate_prediction` (questionnaire.py lines 199-230): one string per true
predicate, except self-harm and bullying which each append two. -/
def checklist_recommendations (data : QDict) : List String :=
  (if data.hours_sleep.getD 8 < 7 then
    ["Try to get 7-9 hours of sleep each night. Establish a regular bedtime routine."] else []) ++
  ((if data.minutes_physical_activity.getD 0 < 60 then
    ["Aim for at least 60 minutes of physical activity per day. Even a 10-minute walk can help."] else []) ++
  ((if data.feel_sad.getD 1 ≥ 4 then
    ["Consider talking to someone you trust about how you\x27re feeling. Practice self-care activities."] else []) ++
  ((if data.feel_stressed.getD 1 ≥ 4 then
    ["Try stress management techniques like deep breathing, meditation, or taking breaks."] else []) ++
  ((if data.self_harm_ever.getD false then
    ["Please consider reaching out to a mental health professional for support.",
     "You can contact Samaritans helpline: 116 123"] else []) ++
  ((if data.bullied_recently.getD false then
    ["Speak to a trusted adult or teacher about what\x27s happening.",
     "Remember: it\x27s not your fault, and help is available."] else []) ++
  (if data.family_support.getD 3 < 3 then
    ["Consider building support networks through friends, mentors, or school counselors."] else []))))))

/-- The two level-conditioned general recommendations appended by
`generate_prediction` (questionnaire.py lines 232-241). -/
def general_recommendations (risk_level : String) : List String :=
  if risk_level = "High" then
    ["Consider scheduling an appointment with a mental health professional.",
     "Practice daily mindfulness or grounding exercises."]
  else if risk_level = "Medium" then
    ["Regular exercise and healthy sleep can help improve your mental health.",
     "Try keeping a mood journal to track your emotions."]
  else
    ["Great job taking care of your mental health! Keep up the good work.",
     "Continue maintaining healthy habits and supporting others."]

set_option linter.unusedVariables false in
/-- `generate_prediction` (questionnaire.py lines 196-246), returning the
pair of the `factors` and `recommendations` lists. The sequential
conditional appends of the source are written as concatenations of
conditional singletons/pairs, in identical order. -/
def generate_prediction (risk_score : Rat) (risk_level : String) (data : QDict) :
    List String × List String :=
  (checklist_factors data,
   checklist_recommendations data ++ general_recommendations risk_level)

/-- Models Python `round(x, 2)` of predictions.py line 118: rounding to the
nearest hundredth (Python breaks exact half-hundredth ties to even; no
claim exercises a tie). -/
def round2 (x : Rat) : Rat := ((round (x * 100) : Int) : Rat) / 100

/-- Result shape of `get_prediction_trends` (predictions.py lines 96-129):
either the sentinel no-data response of lines 96-100 or the report dict of
lines 117-129 (its score/trend/count fields; the echoed data points carry
no further computation). -/
inductive TrendResult where
  | noData : TrendResult
  | report (average_score : Rat) (trend : String) (total_predictions : Nat) : TrendResult
deriving DecidableEq

/-- The trend-direction computation of `get_prediction_trends`
(predictions.py lines 106-115), over the chronologically ascending score
list: compare `scores[-1]` with `scores[0]` when at least two points exist. -/
def trend_string (scores : List Rat) : String :=
  if 2 ≤ scores.length then
    if scores.getLastD 0 < scores.headD 0 then "improving"
    else if scores.headD 0 < scores.getLastD 0 then "declining"
    else "stable"
  else "insufficient_data"

/-- `get_prediction_trends` (predictions.py lines 79-129) on the
chronologically ascending list of risk scores already filtered to the
window: the empty check of line 96, the mean of line 104 rounded at line
118, and the trend direction of lines 106-115. -/
def get_prediction_trends (scores : List Rat) : TrendResult :=
  if scores.isEmpty then .noData
  else .report (round2 (scores.sum / (scores.length : Rat))) (trend_string scores)
    scores.length

/-- One stored prediction row as read by `get_personalized_insights`
(predictions.py lines 137-193): its risk score, risk level and factor list. -/
structure PredRec where
  risk_score : Rat
  risk_level : String
  factors : List String

/-- The three insight kinds appended by `get_personalized_insights`
(predictions.py lines 157-192); the fixed title/message strings carry no
further computation and are elided. -/
inductive Insight where
  | warning : Insight
  | positive : Insight
  | info : Insight
deriving DecidableEq

/-- `recent_avg` of predictions.py line 166: mean of the scores of the
first three entries of the most-recent-first sample. -/
def recent_avg (preds : List PredRec) : Rat :=
  ((preds.take 3).map PredRec.risk_score).sum / 3

/-- `older_avg` of predictions.py line 167: mean of the scores of the last
three entries (`predictions[-3:]`) of the most-recent-first sample. -/
def older_avg (preds : List PredRec) : Rat :=
  ((preds.drop (preds.length - 3)).map PredRec.risk_score).sum / 3

/-- The insight list built by `get_personalized_insights`
(predictions.py lines 143-193) over the most-recent-first sample: a warning
insight when the High count exceeds half the sample (line 157), a positive
insight when the sample has at least 3 entries and `recent_avg` is strictly
below `older_avg - 10` (lines 165-174), and an info insight when any factors
were recorded (lines 177-192). An empty sample yields the early-return empty
list of lines 143-147, which coincides with all three conditions failing. -/
def get_personalized_insights (preds : List PredRec) : List Insight :=
  (if ((preds.map PredRec.risk_level).count "High" : Rat) > (preds.length : Rat) * (1/2)
    then [Insight.warning] else []) ++
  (if 3 ≤ preds.length then
    (if recent_avg preds < older_avg preds - 10 then [Insight.positive] else [])
   else []) ++
  (if preds.flatMap PredRec.factors ≠ [] then [Insight.info] else [])

/-- A raw dictionary value as seen by `prepare_features`
(model.py lines 29-53): a Python int, float, bool or str, or a value of any
other type (`rother`), on which the `float(value)` call of line 51 raises
`TypeError`. -/
inductive RawValue where
  | rint (n : Int) : RawValue
  | rfloat (q : Rat) : RawValue
  | rbool (b : Bool) : RawValue
  | rstr (s : String) : RawValue
  | rother : RawValue
deriving DecidableEq

/-- `self.feature_names` of model.py lines 21-26. -/
def feature_names : List String :=
  ["feel_sad", "feel_lonely", "feel_confident", "feel_stressed",
   "feel_happy", "feel_angry", "hours_sleep", "minutes_physical_activity",
   "friends_count", "family_support", "school_belonging",
   "self_harm_ever", "bullied_recently", "stress_level", "anxiety_level"]

/-- Models Python `str.lower()` for the bucket comparison (the bucket
tokens are ASCII, where per-character lowering is exact). -/
def ascii_lower (s : String) : String := String.mk (s.data.map Char.toLower)

/-- The string coercion of `prepare_features` (model.py lines 41-49):
three-tier lexical buckets over the lowercased token, anything else 0. -/
def str_coerce (s : String) : Rat :=
  if ascii_lower s = "never" ∨ ascii_lower s = "no" ∨ ascii_lower s = "false" then 0
  else if ascii_lower s = "rarely" ∨ ascii_lower s = "sometimes" then 1
  else if ascii_lower s = "often" ∨ ascii_lower s = "yes" ∨ ascii_lower s = "true" then 2
  else 0

/-- The per-value coercion of the `prepare_features` loop body
(model.py lines 34-51): bools to 0/1, strings through `str_coerce`, ints
and floats through `float(value)`, and any other type raising `TypeError`
(modelled as `none`). -/
def coerce_value : RawValue → Option Rat
  | .rbool b => some (if b then 1 else 0)
  | .rstr s => some (str_coerce s)
  | .rint n => some (n : Rat)
  | .rfloat q => some q
  | .rother => none

/-- The fixed-shape float vector produced by `prepare_features`, one field
per entry of `feature_names`, in order. -/
structure NormalizedFeatures where
  feel_sad : Rat
  feel_lonely : Rat
  feel_confident : Rat
  feel_stressed : Rat
  feel_happy : Rat
  feel_angry : Rat
  hours_sleep : Rat
  minutes_physical_activity : Rat
  friends_count : Rat
  family_support : Rat
  school_belonging : Rat
  self_harm_ever : Rat
  bullied_recently : Rat
  stress_level : Rat
  anxiety_level : Rat
deriving DecidableEq

/-- The loop body accumulation of `prepare_features` (model.py lines 31-51):
for each feature name, `data.get(feature, 0)` followed by `coerce_value`,
collecting the float list; a raised `TypeError` propagates as `none`. -/
def coerce_fields (data : String → Option RawValue) : List String → Option (List Rat)
  | [] => some []
  | name :: rest =>
    (coerce_value ((data name).getD (.rint 0))).bind fun v =>
      (coerce_fields data rest).bind fun vs => some (v :: vs)

/-- `MentalHealthPredictor.prepare_features` (model.py lines 29-53): the
loop over `feature_names`, with the resulting 15-entry float vector read
back as a named record. -/
def prepare_features (data : String → Option RawValue) : Option NormalizedFeatures :=
  (coerce_fields data feature_names).bind fun vals =>
    match vals with
    | [feel_sad, feel_lonely, feel_confident, feel_stressed, feel_happy,
       feel_angry, hours_sleep, minutes_physical_activity, friends_count,
       family_support, school_belonging, self_harm_ever, bullied_recently,
       stress_level, anxiety_level] =>
      some { feel_sad := feel_sad, feel_lonely := feel_lonely,
             feel_confident := feel_confident, feel_stressed := feel_stressed,
             feel_happy := feel_happy, feel_angry := feel_angry,
             hours_sleep := hours_sleep,
             minutes_physical_activity := minutes_physical_activity,
             friends_count := friends_count, family_support := family_support,
             school_belonging := school_belonging, self_harm_ever := self_harm_ever,
             bullied_recently := bullied_recently, stress_level := stress_level,
             anxiety_level := anxiety_level }
    | _ => none

/-- A `NormalizedFeatures` record re-read as a raw input map: each feature
name mapped to its float value, exactly what feeding the output vector back
through the dict interface yields. -/
def nf_as_raw (nf : NormalizedFeatures) : String → Option RawValue := fun s =>
  if s = "feel_sad" then some (.rfloat nf.feel_sad)
  else if s = "feel_lonely" then some (.rfloat nf.feel_lonely)
  else if s = "feel_confident" then some (.rfloat nf.feel_confident)
  else if s = "feel_stressed" then some (.rfloat nf.feel_stressed)
  else if s = "feel_happy" then some (.rfloat nf.feel_happy)
  else if s = "feel_angry" then some (.rfloat nf.feel_angry)
  else if s = "hours_sleep" then some (.rfloat nf.hours_sleep)
  else if s = "minutes_physical_activity" then some (.rfloat nf.minutes_physical_activity)
  else if s = "friends_count" then some (.rfloat nf.friends_count)
  else if s = "family_support" then some (.rfloat nf.family_support)
  else if s = "school_belonging" then some (.rfloat nf.school_belonging)
  else if s = "self_harm_ever" then some (.rfloat nf.self_harm_ever)
  else if s = "bullied_recently" then some (.rfloat nf.bullied_recently)
  else if s = "stress_level" then some (.rfloat nf.stress_level)
  else if s = "anxiety_level" then some (.rfloat nf.anxiety_level)
  else none

/-- The all-zero feature record: what `prepare_features` returns on an
empty raw map. -/
def zeroNF : NormalizedFeatures :=
  { feel_sad := 0, feel_lonely := 0, feel_confident := 0, feel_stressed := 0,
    feel_happy := 0, feel_angry := 0, hours_sleep := 0,
    minutes_physical_activity := 0, friends_count := 0, family_support := 0,
    school_belonging := 0, self_harm_ever := 0, bullied_recently := 0,
    stress_level := 0, anxiety_level := 0 }

/-- Replaces every absent field of a `QDict` by the `.get` fallback that
`calculate_risk_score` and `generate_prediction` use for it
(questionnaire.py lines 143-192 and 202-228), and the pydantic defaults for
the self-harm frequency string. -/
def fill_defaults (data : QDict) : QDict :=
  { feel_sad := some (data.feel_sad.getD 1),
    feel_lonely := some (data.feel_lonely.getD 1),
    feel_confident := some (data.feel_confident.getD 1),
    feel_stressed := some (data.feel_stressed.getD 1),
    feel_happy := some (data.feel_happy.getD 1),
    feel_angry := some (data.feel_angry.getD 1),
    hours_sleep := some (data.hours_sleep.getD 8),
    minutes_physical_activity := some (data.minutes_physical_activity.getD 0),
    friends_count := some (data.friends_count.getD 3),
    family_support := some (data.family_support.getD 3),
    school_belonging := some (data.school_belonging.getD 3),
    self_harm_ever := some (data.self_harm_ever.getD false),
    self_harm_frequency := some (data.self_harm_frequency.getD "Never"),
    bullied_recently := some (data.bullied_recently.getD false),
    stress_level := some (data.stress_level.getD 1),
    anxiety_level := some (data.anxiety_level.getD 1) }

/-- An extreme input: the fuzz-test coordinates stress 10, anxiety 10,
self-harm, bullied, zero sleep, zero activity, with the remaining fields
also at their maximum-risk values. -/
def extreme_input : QDict :=
  { feel_sad := some 5, feel_lonely := some 5, feel_confident := some 1,
    feel_stressed := some 5, feel_happy := some 1, feel_angry := some 5,
    hours_sleep := some 0, minutes_physical_activity := some 0,
    friends_count := some 0, family_support := some 1,
    school_belonging := some 1, self_harm_ever := some true,
    self_harm_frequency := some "Often", bullied_recently := some true,
    stress_level := some 10, anxiety_level := some 10 }

/-- The minimum-risk assignment of every field. -/
def min_input : QDict :=
  { feel_sad := some 1, feel_lonely := some 1, feel_confident := some 5,
    feel_stressed := some 1, feel_happy := some 5, feel_angry := some 1,
    hours_sleep := some 9, minutes_physical_activity := some 90,
    friends_count := some 5, family_support := some 5,
    school_belonging := some 5, self_harm_ever := some false,
    self_harm_frequency := some "Never", bullied_recently := some false,
    stress_level := some 1, anxiety_level := some 1 }

/-- An input whose raw (pre-clamp) sum is negative: top positive emotions,
fine activity and belonging, everything else defaulted. -/
def low_input : QDict :=
  { feel_confident := some 5, feel_happy := some 5,
    minutes_physical_activity := some 90, school_belonging := some 5 }

/-- A stored prediction row with the given score, Low level and no
factors. -/
def flat_pred (q : Rat) : PredRec :=
  { risk_score := q, risk_level := "Low", factors := [] }

/-- Six assessments, most recent first: three scores of 40 followed by
three of 50, so the recent mean sits exactly 10 below the older mean. -/
def plateau_preds : List PredRec :=
  [flat_pred 40, flat_pred 40, flat_pred 40, flat_pred 50, flat_pred 50, flat_pred 50]

/-- A raw map whose feel_sad entry has a type outside int/float/bool/str
(e.g. Python None), on which `float(value)` raises. -/
def bad_raw : String → Option RawValue :=
  fun s => if s = "feel_sad" then some RawValue.rother else none

/-! ## Helper lemmas -/

lemma len_chunk (p : Prop) [Decidable p] (a rest : List String) :
    ((if p then a else []) ++ rest).length = (if p then a.length else 0) + rest.length := by
  split <;> simp

lemma len_ite (p : Prop) [Decidable p] (a : List String) :
    (if p then a else []).length = if p then a.length else 0 := by
  split <;> simp

lemma count_chunk (b : Bool) (rest : List Bool) :
    (b :: rest).count true = (if b = true then 1 else 0) + rest.count true := by
  cases b
  · simp [List.count_cons]
  · simp [List.count_cons]
    omega

lemma sublist_ite_cons (p : Prop) [Decidable p] (x : String) (l1 l2 : List String)
    (h : l1.Sublist l2) : ((if p then [x] else []) ++ l1).Sublist (x :: l2) := by
  split
  · exact h.cons₂ x
  · exact h.cons x

lemma sublist_ite_singleton (p : Prop) [Decidable p] (x : String) :
    (if p then [x] else []).Sublist [x] := by
  split
  · exact List.Sublist.refl _
  · exact List.nil_sublist _

lemma factors_sublist (data : QDict) : (checklist_factors data).Sublist checklist_labels := by
  unfold checklist_factors checklist_labels
  apply sublist_ite_cons
  apply sublist_ite_cons
  apply sublist_ite_cons
  apply sublist_ite_cons
  apply sublist_ite_cons
  apply sublist_ite_cons
  exact sublist_ite_singleton _ _

lemma labels_nodup : checklist_labels.Nodup := by decide

lemma factors_nodup (data : QDict) : (checklist_factors data).Nodup :=
  labels_nodup.sublist (factors_sublist data)

lemma factors_length (data : QDict) :
    (checklist_factors data).length = (checklist_preds data).count true := by
  unfold checklist_factors checklist_preds
  rw [len_chunk, len_chunk, len_chunk, len_chunk, len_chunk, len_chunk, len_ite]
  rw [count_chunk, count_chunk, count_chunk, count_chunk, count_chunk, count_chunk, count_chunk]
  simp only [List.count_nil, List.length_singleton, decide_eq_true_eq, List.length_nil]
  split_ifs <;> omega

lemma general_two (risk_level : String) : (general_recommendations risk_level).length = 2 := by
  unfold general_recommendations
  split_ifs <;> rfl

lemma recs_length_ge (data : QDict) :
    (checklist_preds data).count true ≤ (checklist_recommendations data).length := by
  unfold checklist_recommendations checklist_preds
  rw [len_chunk, len_chunk, len_chunk, len_chunk, len_chunk, len_chunk, len_ite]
  rw [count_chunk, count_chunk, count_chunk, count_chunk, count_chunk, count_chunk, count_chunk]
  simp only [List.count_nil, List.length_singleton, decide_eq_true_eq, List.length_nil,
    List.length_cons]
  split_ifs <;> omega

lemma trend_string_spec (scores : List Rat) (hne : scores ≠ []) :
    (trend_string scores = "improving" ↔
      2 ≤ scores.length ∧ scores.getLastD 0 < scores.headD 0) ∧
    (trend_string scores = "declining" ↔
      2 ≤ scores.length ∧ scores.headD 0 < scores.getLastD 0) ∧
    (trend_string scores = "stable" ↔
      2 ≤ scores.length ∧ scores.headD 0 = scores.getLastD 0) ∧
    (trend_string scores = "insufficient_data" ↔ scores.length = 1) := by
  have hlen : 1 ≤ scores.length := List.length_pos.2 hne
  unfold trend_string
  by_cases hl : 2 ≤ scores.length
  · rw [if_pos hl]
    rcases lt_trichotomy (scores.getLastD 0) (scores.headD 0) with hlt | heq | hgt
    · rw [if_pos hlt]
      exact ⟨⟨fun _ => ⟨hl, hlt⟩, fun _ => rfl⟩,
        ⟨fun hx => absurd hx (by decide), fun hx => absurd hx.2 (lt_asymm hlt)⟩,
        ⟨fun hx => absurd hx (by decide), fun hx => absurd hx.2 (ne_of_gt hlt)⟩,
        ⟨fun hx => absurd hx (by decide), fun hx => absurd hl (by omega)⟩⟩
    · rw [if_neg (by rw [heq]; exact lt_irrefl _), if_neg (by rw [heq]; exact lt_irrefl _)]
      exact ⟨⟨fun hx => absurd hx (by decide), fun hx => absurd hx.2 (by rw [heq]; exact lt_irrefl _)⟩,
        ⟨fun hx => absurd hx (by decide), fun hx => absurd hx.2 (by rw [heq]; exact lt_irrefl _)⟩,
        ⟨fun _ => ⟨hl, heq.symm⟩, fun _ => rfl⟩,
        ⟨fun hx => absurd hx (by decide), fun hx => absurd hl (by omega)⟩⟩
    · rw [if_neg (lt_asymm hgt), if_pos hgt]
      exact ⟨⟨fun hx => absurd hx (by decide), fun hx => absurd hx.2 (lt_asymm hgt)⟩,
        ⟨fun _ => ⟨hl, hgt⟩, fun _ => rfl⟩,
        ⟨fun hx => absurd hx (by decide), fun hx => absurd hx.2 (ne_of_lt hgt)⟩,
        ⟨fun hx => absurd hx (by decide), fun hx => absurd hl (by omega)⟩⟩
  · rw [if_neg hl]
    have h1 : scores.length = 1 := by omega
    exact ⟨⟨fun hx => absurd hx (by decide), fun hx => absurd hx.1 hl⟩,
      ⟨fun hx => absurd hx (by decide), fun hx => absurd hx.1 hl⟩,
      ⟨fun hx => absurd hx (by decide), fun hx => absurd hx.1 hl⟩,
      ⟨fun _ => h1, fun _ => rfl⟩⟩

lemma coerce_value_ne_rother (v : RawValue) (h : v ≠ RawValue.rother) :
    ∃ q, coerce_value v = some q := by
  cases v with
  | rint n => exact ⟨_, rfl⟩
  | rfloat q => exact ⟨_, rfl⟩
  | rbool b => exact ⟨_, rfl⟩
  | rstr s => exact ⟨_, rfl⟩
  | rother => exact absurd rfl h

lemma getD_ne_rother (data : String → Option RawValue)
    (h : ∀ s v, data s = some v → v ≠ RawValue.rother) (s : String) :
    (data s).getD (RawValue.rint 0) ≠ RawValue.rother := by
  cases hd : data s with
  | none => simp
  | some v => simpa using h s v hd

lemma prepare_features_total (data : String → Option RawValue)
    (h : ∀ s v, data s = some v → v ≠ RawValue.rother) :
    ∃ nf, prepare_features data = some nf := by
  obtain ⟨q1, e1⟩ := coerce_value_ne_rother _ (getD_ne_rother data h "feel_sad")
  obtain ⟨q2, e2⟩ := coerce_value_ne_rother _ (getD_ne_rother data h "feel_lonely")
  obtain ⟨q3, e3⟩ := coerce_value_ne_rother _ (getD_ne_rother data h "feel_confident")
  obtain ⟨q4, e4⟩ := coerce_value_ne_rother _ (getD_ne_rother data h "feel_stressed")
  obtain ⟨q5, e5⟩ := coerce_value_ne_rother _ (getD_ne_rother data h "feel_happy")
  obtain ⟨q6, e6⟩ := coerce_value_ne_rother _ (getD_ne_rother data h "feel_angry")
  obtain ⟨q7, e7⟩ := coerce_value_ne_rother _ (getD_ne_rother data h "hours_sleep")
  obtain ⟨q8, e8⟩ := coerce_value_ne_rother _ (getD_ne_rother data h "minutes_physical_activity")
  obtain ⟨q9, e9⟩ := coerce_value_ne_rother _ (getD_ne_rother data h "friends_count")
  obtain ⟨q10, e10⟩ := coerce_value_ne_rother _ (getD_ne_rother data h "family_support")
  obtain ⟨q11, e11⟩ := coerce_value_ne_rother _ (getD_ne_rother data h "school_belonging")
  obtain ⟨q12, e12⟩ := coerce_value_ne_rother _ (getD_ne_rother data h "self_harm_ever")
  obtain ⟨q13, e13⟩ := coerce_value_ne_rother _ (getD_ne_rother data h "bullied_recently")
  obtain ⟨q14, e14⟩ := coerce_value_ne_rother _ (getD_ne_rother data h "stress_level")
  obtain ⟨q15, e15⟩ := coerce_value_ne_rother _ (getD_ne_rother data h "anxiety_level")
  refine ⟨⟨q1, q2, q3, q4, q5, q6, q7, q8, q9, q10, q11, q12, q13, q14, q15⟩, ?_⟩
  simp only [prepare_features, feature_names, coerce_fields, e1, e2, e3, e4, e5, e6, e7, e8,
    e9, e10, e11, e12, e13, e14, e15, Option.some_bind]

lemma prepare_features_fixed (nf : NormalizedFeatures) :
    prepare_features (nf_as_raw nf) = some nf := rfl

/-! ## Claim theorems -/

/-- C1: for every questionnaire data map, `calculate_risk_score` returns a
value in [0, 100]; the final step clamps the category sum with
`max(0, min(100, sum))`, so an extreme input (the fuzz coordinates with the
remaining fields also at maximum risk) clamps down to 100, and any
non-positive sum clamps up to 0. -/
theorem C1_score_clamp :
    (∀ data : QDict,
      calculate_risk_score data = max 0 (min 100 (raw_score data)) ∧
      0 ≤ calculate_risk_score data ∧ calculate_risk_score data ≤ 100) ∧
    (100 < raw_score extreme_input ∧ calculate_risk_score extreme_input = 100) ∧
    (∀ data : QDict, raw_score data ≤ 0 → calculate_risk_score data = 0) := by
  refine ⟨fun data => ?_, ⟨by decide, by decide⟩, fun data h => ?_⟩
  · unfold calculate_risk_score
    refine ⟨?_, ?_, ?_⟩ <;> omega
  · unfold calculate_risk_score
    omega

/-- Witness for C1: a concrete input with negative raw sum clamps to 0. -/
theorem C1_score_clamp_witness : calculate_risk_score low_input = 0 :=
  C1_score_clamp.2.2 low_input (by decide)

/-- C2: the minimum-risk assignment scores exactly 0, with the lower clamp
engaging on the unclamped sum -12 = (4 - 10) * 2 from the emotional
category while every other category contributes 0. -/
theorem C2_minimum_risk_zero :
    calculate_risk_score min_input = 0 ∧ raw_score min_input = -12 ∧
    raw_score min_input < 0 ∧ emotional_pts min_input = -12 ∧
    sleep_pts min_input = 0 ∧ activity_pts min_input = 0 ∧
    friends_pts min_input = 0 ∧ family_pts min_input = 0 ∧
    belonging_pts min_input = 0 ∧ self_harm_pts min_input = 0 ∧
    bullying_pts min_input = 0 ∧ stress_anxiety_pts min_input = 0 := by
  decide

/-- C3: the risk classification is a total deterministic partition into
three contiguous half-open intervals with boundaries 30 and 60, it takes
the stated values at 29.99, 30, 59.99 and 60, and it is monotone in the
score. -/
theorem C3_classify_partition :
    (∀ s : Rat, (classify s = "Low" ↔ s < 30) ∧
      (classify s = "Medium" ↔ 30 ≤ s ∧ s < 60) ∧
      (classify s = "High" ↔ 60 ≤ s)) ∧
    classify (2999/100) = "Low" ∧ classify 30 = "Medium" ∧
    classify (5999/100) = "Medium" ∧ classify 60 = "High" ∧
    (∀ s t : Rat, s ≤ t → levelRank (classify s) ≤ levelRank (classify t)) := by
  have key : ∀ s : Rat, (classify s = "Low" ↔ s < 30) ∧
      (classify s = "Medium" ↔ 30 ≤ s ∧ s < 60) ∧
      (classify s = "High" ↔ 60 ≤ s) := by
    intro s
    unfold classify
    by_cases h1 : s < 30
    · rw [if_pos h1]
      exact ⟨⟨fun _ => h1, fun _ => rfl⟩,
        ⟨fun hx => absurd hx (by decide), fun hx => absurd h1 (not_lt.2 hx.1)⟩,
        ⟨fun hx => absurd hx (by decide),
          fun hx => absurd h1 (not_lt.2 (le_trans (by norm_num) hx))⟩⟩
    · rw [if_neg h1]
      by_cases h2 : s < 60
      · rw [if_pos h2]
        exact ⟨⟨fun hx => absurd hx (by decide), fun hx => absurd hx h1⟩,
          ⟨fun _ => ⟨not_lt.1 h1, h2⟩, fun _ => rfl⟩,
          ⟨fun hx => absurd hx (by decide), fun hx => absurd h2 (not_lt.2 hx)⟩⟩
      · rw [if_neg h2]
        exact ⟨⟨fun hx => absurd hx (by decide), fun hx => absurd hx h1⟩,
          ⟨fun hx => absurd hx (by decide), fun hx => absurd hx.2 h2⟩,
          ⟨fun _ => not_lt.1 h2, fun _ => rfl⟩⟩
  refine ⟨key, by norm_num [classify], by norm_num [classify], by norm_num [classify],
    by norm_num [classify], fun s t hst => ?_⟩
  by_cases ht1 : t < 30
  · rw [(key s).1.mpr (lt_of_le_of_lt hst ht1), (key t).1.mpr ht1]
  · by_cases ht2 : t < 60
    · rw [(key t).2.1.mpr ⟨not_lt.1 ht1, ht2⟩]
      by_cases hs1 : s < 30
      · rw [(key s).1.mpr hs1]
        decide
      · rw [(key s).2.1.mpr ⟨not_lt.1 hs1, lt_of_le_of_lt hst ht2⟩]
    · rw [(key t).2.2.mpr (not_lt.1 ht2)]
      by_cases hs1 : s < 30
      · rw [(key s).1.mpr hs1]
        decide
      · by_cases hs2 : s < 60
        · rw [(key s).2.1.mpr ⟨not_lt.1 hs1, hs2⟩]
          decide
        · rw [(key s).2.2.mpr (not_lt.1 hs2)]

/-- Witness for C3: monotonicity applied at the concrete pair 10 ≤ 70. -/
theorem C3_classify_partition_witness :
    levelRank (classify 10) ≤ levelRank (classify 70) :=
  C3_classify_partition.2.2.2.2.2 10 70 (by norm_num)

/-- C4: for every feature map and risk level, the factors list has exactly
one fixed label per true checklist predicate, in checklist order and
without duplicates, and the recommendations list is the checklist
recommendations followed by exactly two level-conditioned general
recommendations, so its length is at least the true-predicate count plus
two. -/
theorem C4_checklist_generation :
    (∀ (risk_score : Rat) (risk_level : String) (data : QDict),
      (generate_prediction risk_score risk_level data).1.length =
        (checklist_preds data).count true ∧
      (generate_prediction risk_score risk_level data).1.Sublist checklist_labels ∧
      (generate_prediction risk_score risk_level data).1.Nodup ∧
      (generate_prediction risk_score risk_level data).2 =
        checklist_recommendations data ++ general_recommendations risk_level ∧
      (checklist_preds data).count true + 2 ≤
        (generate_prediction risk_score risk_level data).2.length) ∧
    (∀ risk_level : String, (general_recommendations risk_level).length = 2) := by
  refine ⟨fun rs l d => ⟨factors_length d, factors_sublist d, factors_nodup d, rfl, ?_⟩,
    general_two⟩
  have h1 := recs_length_ge d
  have h2 := general_two l
  show _ ≤ (checklist_recommendations d ++ general_recommendations l).length
  rw [List.length_append, h2]
  omega

/-- C5: on the chronologically ascending filtered score sequence, the trend
report carries the mean rounded to two decimals, the trend field is
improving, declining, stable or insufficient-data exactly per the
first/last comparison and the point count, the stated example sequences
classify as stated, and the empty sequence yields the no-data sentinel. -/
theorem C5_trend_report :
    get_prediction_trends [] = TrendResult.noData ∧
    (∀ scores : List Rat, scores ≠ [] →
      get_prediction_trends scores =
        TrendResult.report (round2 (scores.sum / (scores.length : Rat)))
          (trend_string scores) scores.length ∧
      (trend_string scores = "improving" ↔
        2 ≤ scores.length ∧ scores.getLastD 0 < scores.headD 0) ∧
      (trend_string scores = "declining" ↔
        2 ≤ scores.length ∧ scores.headD 0 < scores.getLastD 0) ∧
      (trend_string scores = "stable" ↔
        2 ≤ scores.length ∧ scores.headD 0 = scores.getLastD 0) ∧
      (trend_string scores = "insufficient_data" ↔ scores.length = 1)) ∧
    get_prediction_trends [80, 60, 40] = TrendResult.report 60 "improving" 3 ∧
    get_prediction_trends [40, 60, 80] = TrendResult.report 60 "declining" 3 ∧
    get_prediction_trends [50, 50] = TrendResult.report 50 "stable" 2 ∧
    get_prediction_trends [50] = TrendResult.report 50 "insufficient_data" 1 := by
  refine ⟨rfl, fun scores hne => ⟨?_, trend_string_spec scores hne⟩, ?_, ?_, ?_, ?_⟩
  · cases scores with
    | nil => exact absurd rfl hne
    | cons a l => rfl
  · norm_num [get_prediction_trends, trend_string, round2, round_eq, Int.floor_eq_iff]
  · norm_num [get_prediction_trends, trend_string, round2, round_eq, Int.floor_eq_iff]
  · norm_num [get_prediction_trends, trend_string, round2, round_eq, Int.floor_eq_iff]
  · norm_num [get_prediction_trends, trend_string, round2, round_eq, Int.floor_eq_iff]

/-- Witness for C5: the trend-field characterisation applied to the
concrete improving sequence. -/
theorem C5_trend_report_witness :
    trend_string [80, 60, 40] = "improving" ↔
      2 ≤ ([80, 60, 40] : List Rat).length ∧
      ([80, 60, 40] : List Rat).getLastD 0 < ([80, 60, 40] : List Rat).headD 0 :=
  (C5_trend_report.2.1 [80, 60, 40] (List.cons_ne_nil _ _)).2.1

/-- C6 counterexample: a six-entry history whose recent mean is exactly 10
below the older mean satisfies the inclusion condition the claim states
(recent ≤ older - 10) yet the code produces no positive insight, because
the source comparison is strict. -/
theorem C6_positive_insight_cex :
    3 ≤ plateau_preds.length ∧
    recent_avg plateau_preds ≤ older_avg plateau_preds - 10 ∧
    Insight.positive ∉ get_personalized_insights plateau_preds := by
  refine ⟨by decide, by norm_num [recent_avg, older_avg, plateau_preds, flat_pred], ?_⟩
  norm_num [get_personalized_insights, recent_avg, older_avg, plateau_preds, flat_pred]
  decide

/-- C6 (amended): the positive insight is produced exactly when the sample
has at least 3 entries and the mean of the 3 most recent scores is
strictly more than 10 points below the mean of the 3 oldest sampled
scores; in particular never with fewer than 3 entries. -/
theorem C6_positive_insight_strict :
    ∀ preds : List PredRec,
      Insight.positive ∈ get_personalized_insights preds ↔
        3 ≤ preds.length ∧ recent_avg preds < older_avg preds - 10 := by
  intro preds
  unfold get_personalized_insights
  split_ifs with h1 h2 h3 <;> simp_all

/-- C7 counterexample: on an empty raw map the feature preparation yields
the all-zero vector, so the absent hours_sleep field becomes 0, not the
claimed domain default 8.0. -/
theorem C7_normalizer_default_cex :
    prepare_features (fun _ => none) = some zeroNF ∧
    zeroNF.hours_sleep = 0 ∧ (0 : Rat) ≠ 8 :=
  ⟨rfl, rfl, by norm_num⟩

/-- C7 (amended): `prepare_features` substitutes 0 for every absent field;
the claimed per-field domain defaults (1 for the emotion scales, 8 for
sleep, 0 for activity, 3 for the social fields, false for the flags, 1 for
stress/anxiety) are instead the `.get` fallbacks used by
`calculate_risk_score` and `generate_prediction`, whose outputs are
unchanged when absent fields are filled with exactly those defaults. -/
theorem C7_normalizer_defaults :
    prepare_features (fun _ => none) = some zeroNF ∧
    (∀ data : QDict, calculate_risk_score (fill_defaults data) = calculate_risk_score data) ∧
    (∀ (risk_score : Rat) (risk_level : String) (data : QDict),
      generate_prediction risk_score risk_level (fill_defaults data) =
        generate_prediction risk_score risk_level data) :=
  ⟨rfl, fun _ => rfl, fun _ _ _ => rfl⟩

/-- C8 counterexample: a raw map carrying a value that is not an int,
float, bool or string (e.g. Python None or a list) makes
`prepare_features` raise a TypeError at `float(value)` (modelled as
`none`), so it does not return a normalized vector on every input map. -/
theorem C8_never_raises_cex : prepare_features bad_raw = none := rfl

/-- C8 (amended): `prepare_features` returns a normalized vector on every
raw map whose present values are ints, floats, bools or strings; booleans
coerce to 0/1 and strings coerce through the three-tier lowercased bucket
(never/no/false to 0, rarely/sometimes to 1, often/yes/true to 2, anything
else to 0); only a value of any other type makes float() raise. -/
theorem C8_never_raises_amended :
    (∀ data : String → Option RawValue,
      (∀ s v, data s = some v → v ≠ RawValue.rother) →
      ∃ nf, prepare_features data = some nf) ∧
    (∀ b, coerce_value (RawValue.rbool b) = some (if b then (1 : Rat) else 0)) ∧
    (∀ s, coerce_value (RawValue.rstr s) = some (str_coerce s)) ∧
    str_coerce "Never" = 0 ∧ str_coerce "no" = 0 ∧ str_coerce "FALSE" = 0 ∧
    str_coerce "rarely" = 1 ∧ str_coerce "Sometimes" = 1 ∧
    str_coerce "often" = 2 ∧ str_coerce "Yes" = 2 ∧ str_coerce "true" = 2 ∧
    str_coerce "whatever" = 0 := by
  refine ⟨prepare_features_total, fun b => rfl, fun s => rfl,
    ?_, ?_, ?_, ?_, ?_, ?_, ?_, ?_, ?_⟩ <;> decide

/-- Witness for C8 (amended): totality applied to the empty raw map. -/
theorem C8_never_raises_amended_witness :
    (prepare_features (fun _ => none)).isSome = true := by
  obtain ⟨nf, hnf⟩ := C8_never_raises_amended.1 (fun _ => none) (fun s v hv => by simp at hv)
  rw [hnf]
  rfl

/-- C9: feature preparation is idempotent: feeding a produced normalized
vector back in as a raw map (all values floats) reproduces it unchanged. -/
theorem C9_normalize_idempotent :
    ∀ (data : String → Option RawValue) (nf : NormalizedFeatures),
      prepare_features data = some nf →
      prepare_features (nf_as_raw nf) = some nf :=
  fun _ nf _ => prepare_features_fixed nf

/-- Witness for C9: idempotence applied to the empty raw map and its
all-zero output. -/
theorem C9_normalize_idempotent_witness :
    prepare_features (nf_as_raw zeroNF) = some zeroNF :=
  C9_normalize_idempotent (fun _ => none) zeroNF rfl

/-- C10: the collected self_harm_frequency string never influences the
risk score, the factors or the recommendations: two payloads agreeing on
every other field produce identical outputs. -/
theorem C10_self_harm_frequency_noninterference :
    ∀ d1 d2 : QDict,
      d2 = { d1 with self_harm_frequency := d2.self_harm_frequency } →
      calculate_risk_score d1 = calculate_risk_score d2 ∧
      ∀ (risk_score : Rat) (risk_level : String),
        generate_prediction risk_score risk_level d1 =
          generate_prediction risk_score risk_level d2 := by
  intro d1 d2 h
  rw [h]
  exact ⟨rfl, fun _ _ => rfl⟩

/-- Witness for C10: noninterference at two concrete payloads differing
only in self_harm_frequency. -/
theorem C10_self_harm_frequency_noninterference_witness :
    calculate_risk_score min_input =
      calculate_risk_score { min_input with self_harm_frequency := some "Often" } :=
  (C10_self_harm_frequency_noninterference min_input
    { min_input with self_harm_frequency := some "Often" } rfl).1
